import Mathlib

/-!
Shallow embedding of the skillzshare backend's collaboration-request core:
`app/routes/collab_requests.py`, `app/db.py` (`cursor_write`), and
`app/utils/audit.py` (`log_event`).

Conventions of the embedding:
* user ids, skill ids, request ids and timestamps are `Nat`;
* the database is an explicit record of tables (`DB`); SQL statements become
  pure functions on `DB`;
* an HTTP handler that can `raise HTTPException(code, detail)` becomes a
  function into `Except HErr _`, with `HErr.http code detail` mirroring the
  exception; FastAPI query-parameter validation failures are `HErr.http 422 _`;
* `cursor_write` (a write-mode unit of work) is modelled explicitly: the body
  is run on the entry state, a commit installs the body's final state, any
  error keeps the entry state (rollback), and the pooled connection is
  returned on both paths.
-/

/-- The `req_status` enum (`ReqStatus` Literal in the source). -/
inductive ReqStatus : Type
  | PENDING
  | ACCEPTED
  | DECLINED
  | CANCELLED
  | COMPLETED
deriving DecidableEq, Repr

/-- One row of the `audit_log` table, as written by `log_event`
(`app/utils/audit.py`). `metadata` is kept opaque. -/
structure AuditRow : Type where
  actor_user_id : Option Nat
  entity : String
  entity_id : Option Nat
  action : String
  metadata : Option String
deriving DecidableEq, Repr

/-- One row of the `collab_requests` table, with the columns selected by the
routes in `collab_requests.py`. -/
structure CollabRow : Type where
  id : Nat
  requester_id : Nat
  receiver_id : Nat
  offered_skill_id : Option Nat
  wanted_skill_id : Option Nat
  status : ReqStatus
  message : Option String
  scheduled_at : Option Nat
  created_at : Nat
  updated_at : Nat
deriving DecidableEq, Repr

/-- The database state visible to the collab-request routes: the `users` and
`skills` tables (only ids matter to this code), the `collab_requests` table,
the `audit_log` table, and the clock backing SQL `now()`. -/
structure DB : Type where
  users : List Nat
  skills : List Nat
  collabs : List CollabRow
  audit_log : List AuditRow
  now : Nat
deriving DecidableEq, Repr

/-- An `HTTPException(status_code, detail)` (or a FastAPI 422 validation
response for malformed query parameters). -/
inductive HErr : Type
  | http (status : Nat) (detail : String)
deriving DecidableEq, Repr

/-- The request body of `POST /collab-requests/` (`CollabCreate` model).
It has no `status` field: the caller cannot supply an initial status. -/
structure CollabCreate : Type where
  requester_id : Nat
  receiver_id : Nat
  offered_skill_id : Option Nat
  wanted_skill_id : Option Nat
  message : Option String
  scheduled_at : Option Nat
deriving DecidableEq, Repr

/-- `ALLOWED_TRANSITIONS` from `collab_requests.py` (sets become lists). -/
def ALLOWED_TRANSITIONS : ReqStatus → List ReqStatus
  | .PENDING => [.ACCEPTED, .DECLINED, .CANCELLED]
  | .ACCEPTED => [.CANCELLED, .COMPLETED]
  | .DECLINED => []
  | .CANCELLED => []
  | .COMPLETED => []

/-- `_can_transition(old, new)`. -/
def _can_transition (old new_s : ReqStatus) : Bool :=
  (ALLOWED_TRANSITIONS old).contains new_s

/-- `_user_exists(cur, uid)`: `SELECT 1 FROM users WHERE id = uid`. -/
def _user_exists (db : DB) (uid : Nat) : Bool :=
  db.users.contains uid

/-- `_skill_exists(cur, sid)`: `SELECT 1 FROM skills WHERE id = sid`. -/
def _skill_exists (db : DB) (sid : Nat) : Bool :=
  db.skills.contains sid

/-- `_fetch(cur, req_id)`: the SELECT joining `collab_requests` with `users`
twice; a row is returned only when it exists and both join partners exist. -/
def _fetch (db : DB) (req_id : Nat) : Option CollabRow :=
  match db.collabs.find? (fun c => c.id == req_id) with
  | none => none
  | some c =>
    if db.users.contains c.requester_id && db.users.contains c.receiver_id then
      some c
    else
      none

/-- `_is_party(req, actor_id)`. -/
def _is_party (req : CollabRow) (actor_id : Nat) : Bool :=
  actor_id == req.requester_id || actor_id == req.receiver_id

/-- `log_event` from `app/utils/audit.py`: one INSERT into `audit_log`. -/
def log_event (db : DB) (actor_user_id : Option Nat) (entity : String)
    (entity_id : Option Nat) (action : String) (metadata : Option String) : DB :=
  { db with audit_log := db.audit_log ++ [⟨actor_user_id, entity, entity_id, action, metadata⟩] }

/-- The pre-check on an optional skill reference in `create_collab`:
`payload.x_skill_id is not None and not _skill_exists(cur, payload.x_skill_id)`
is the rejection condition; `skill_ok` is its negation. -/
def skill_ok (db : DB) : Option Nat → Bool
  | none => true
  | some s => _skill_exists db s

/-- Modelled from the spec: the `collab_requests` table schema is not under
`src/`; per the spec's referential-integrity invariant its foreign keys
(requester/receiver into `users`, offered/wanted skill into `skills`) make the
INSERT raise `ForeignKeyViolation` exactly when a referenced id is absent from
the database state seen at insert time. -/
def fk_dangling (db : DB) (p : CollabCreate) : Bool :=
  !(db.users.contains p.requester_id) ||
  !(db.users.contains p.receiver_id) ||
  !(skill_ok db p.offered_skill_id) ||
  !(skill_ok db p.wanted_skill_id)

/-- The id the serial sequence hands to the next INSERT into
`collab_requests` (one more than the largest id present). -/
def next_id (db : DB) : Nat :=
  (db.collabs.map (fun c => c.id)).foldr Nat.max 0 + 1

/-- The row the INSERT of `create_collab` stores: the payload's columns,
`status` defaulted to PENDING, timestamps defaulted to `now()`. -/
def new_row (db : DB) (p : CollabCreate) : CollabRow :=
  { id := next_id db
    requester_id := p.requester_id
    receiver_id := p.receiver_id
    offered_skill_id := p.offered_skill_id
    wanted_skill_id := p.wanted_skill_id
    status := .PENDING
    message := p.message
    scheduled_at := p.scheduled_at
    created_at := db.now
    updated_at := db.now }

/-- The database after the INSERT of `create_collab`. -/
def inserted (db : DB) (p : CollabCreate) : DB :=
  { db with collabs := db.collabs ++ [new_row db p] }

/-- `create_collab` (`POST /collab-requests/`).

`db` is the database view the pre-checks read; `dbIns` is the view in force
when the INSERT executes. A concurrent committed write between the pre-checks
and the INSERT (the race the source defends against with
`except ForeignKeyViolation`) is modelled by letting `dbIns` differ from `db`;
the sequential case is `create_collab db db p`.

Modelled from the spec: the table schema is not under `src/` — the `status`
column's default is `PENDING` ("inserts with status forced to `PENDING`"),
`created_at`/`updated_at` default to `now()`, and `id` comes from a serial
sequence (modelled as one more than the largest existing id). -/
def create_collab (db dbIns : DB) (p : CollabCreate) : Except HErr (DB × Option CollabRow) :=
  if p.requester_id == p.receiver_id then
    .error (.http 400 "Requester and receiver must be different")
  else if !(_user_exists db p.requester_id) then
    .error (.http 404 "Requester not found")
  else if !(_user_exists db p.receiver_id) then
    .error (.http 404 "Receiver not found")
  else if !(skill_ok db p.offered_skill_id) then
    .error (.http 404 "Offered skill not found")
  else if !(skill_ok db p.wanted_skill_id) then
    .error (.http 404 "Wanted skill not found")
  else if fk_dangling dbIns p then
    .error (.http 400 "Invalid foreign key")
  else
    .ok (inserted dbIns p, _fetch (inserted dbIns p) (next_id dbIns))

/-- The database after the UPDATE of `set_status`: the row's `status` is
replaced and `updated_at` is advanced to `now()`. -/
def status_updated (db : DB) (rid : Nat) (nw : ReqStatus) : DB :=
  { db with collabs := db.collabs.map (fun c =>
      if c.id == rid then { c with status := nw, updated_at := db.now } else c) }

/-- The database after the UPDATE of `reschedule`: the row's `scheduled_at`
is replaced and `updated_at` is advanced to `now()`. -/
def sched_updated (db : DB) (rid t : Nat) : DB :=
  { db with collabs := db.collabs.map (fun c =>
      if c.id == rid then { c with scheduled_at := some t, updated_at := db.now } else c) }

/-- `set_status` (`POST /collab-requests/{id}/status`): load, party check,
transition-table check, receiver-only guard for ACCEPT/DECLINE, the
COMPLETED-from-ACCEPTED guard, then the UPDATE and a re-fetch. -/
def set_status (db : DB) (request_id actor_user_id : Nat) (new_status : ReqStatus) :
    Except HErr (DB × Option CollabRow) :=
  match _fetch db request_id with
  | none => .error (.http 404 "Collab request not found")
  | some req =>
    if !(_is_party req actor_user_id) then
      .error (.http 403 "Only participants can change status")
    else if !(_can_transition req.status new_status) then
      .error (.http 409 "Illegal transition")
    else if (new_status == .ACCEPTED || new_status == .DECLINED)
        && actor_user_id != req.receiver_id then
      .error (.http 403 "Only receiver can accept or decline")
    else if new_status == .COMPLETED && req.status != .ACCEPTED then
      .error (.http 409 "Can complete only from ACCEPTED")
    else
      .ok (status_updated db request_id new_status,
           _fetch (status_updated db request_id new_status) request_id)

/-- `reschedule` (`POST /collab-requests/{id}/reschedule`). -/
def reschedule (db : DB) (request_id actor_user_id : Nat) (scheduled_at : Nat) :
    Except HErr (DB × Option CollabRow) :=
  match _fetch db request_id with
  | none => .error (.http 404 "Collab request not found")
  | some req =>
    if !(_is_party req actor_user_id) then
      .error (.http 403 "Only participants can reschedule")
    else if !(req.status == .PENDING || req.status == .ACCEPTED) then
      .error (.http 409 "Can reschedule only when PENDING or ACCEPTED")
    else
      .ok (sched_updated db request_id scheduled_at,
           _fetch (sched_updated db request_id scheduled_at) request_id)

/-- `delete_collab` (`DELETE /collab-requests/{id}`): party check, then a hard
DELETE of the row. -/
def delete_collab (db : DB) (request_id actor_user_id : Nat) : Except HErr DB :=
  match _fetch db request_id with
  | none => .error (.http 404 "Collab request not found")
  | some req =>
    if !(_is_party req actor_user_id) then
      .error (.http 403 "Only participants can delete")
    else
      .ok { db with collabs := db.collabs.filter (fun c => !(c.id == request_id)) }

/-- FastAPI validation of `limit: int = Query(20, ge=1, le=100)`: default 20
when the client omits the parameter, 422 when the supplied value is out of
range. -/
def validate_limit (supplied : Option Int) : Except HErr Int :=
  let v := supplied.getD 20
  if 1 ≤ v ∧ v ≤ 100 then .ok v
  else .error (.http 422 "limit out of range")

/-- FastAPI validation of `offset: int = Query(0, ge=0)`. -/
def validate_offset (supplied : Option Int) : Except HErr Int :=
  let v := supplied.getD 0
  if 0 ≤ v then .ok v
  else .error (.http 422 "offset out of range")

/-- The WHERE clause assembled by `list_collabs` from the optional filters. -/
def list_filter (user_id : Option Nat) (status : Option ReqStatus)
    (since until_ : Option Nat) (c : CollabRow) : Bool :=
  (match user_id with
   | none => true
   | some u => c.requester_id == u || c.receiver_id == u) &&
  (match status with
   | none => true
   | some s => c.status == s) &&
  (match since with
   | none => true
   | some t => t ≤ c.created_at) &&
  (match until_ with
   | none => true
   | some t => c.created_at < t)

/-- Insertion step for `ORDER BY created_at DESC`. -/
def insertDesc (c : CollabRow) : List CollabRow → List CollabRow
  | [] => [c]
  | d :: ds => if d.created_at ≤ c.created_at then c :: d :: ds else d :: insertDesc c ds

/-- Insertion sort realising `ORDER BY created_at DESC`. -/
def sortDesc : List CollabRow → List CollabRow
  | [] => []
  | c :: cs => insertDesc c (sortDesc cs)

/-- `list_collabs` (`GET /collab-requests/`): query-parameter validation, the
filtered join with `users`, ordering by creation time descending, then
`LIMIT limit OFFSET offset`. -/
def list_collabs (db : DB) (user_id : Option Nat) (status : Option ReqStatus)
    (since until_ : Option Nat) (limit offset : Option Int) :
    Except HErr (List CollabRow) :=
  match validate_limit limit with
  | .error e => .error e
  | .ok l =>
    match validate_offset offset with
    | .error e => .error e
    | .ok o =>
      let rows := db.collabs.filter (fun c =>
        db.users.contains c.requester_id && db.users.contains c.receiver_id &&
        list_filter user_id status since until_ c)
      .ok (((sortDesc rows).drop o.toNat).take l.toNat)

/-- `cursor_write` from `app/db.py`: take one connection from the pool
(`with pool.connection()`), run the request body in a transaction, commit the
body's final state on success, roll back to the entry state on any exception
and re-raise it, and return the connection to the pool on both exit paths.
The result is (what the caller sees, the committed database, the pool size
after exit). -/
def cursor_write {α : Type} (pool : Nat) (db : DB)
    (body : DB → Except HErr (DB × α)) : Except HErr α × DB × Nat :=
  let pool_during := pool - 1
  match body db with
  | .ok (db2, a) => (.ok a, db2, pool_during + 1)
  | .error e => (.error e, db, pool_during + 1)

/-- A sequence of SQL statements run on one cursor: each may raise; the first
exception aborts the rest. -/
def run_statements : List (DB → Except HErr DB) → DB → Except HErr DB
  | [], db => .ok db
  | s :: ss, db =>
    match s db with
    | .ok db2 => run_statements ss db2
    | .error e => .error e

/-- Outcome classifiers for the HTTP error taxonomy. -/
def isOkR {α : Type} : Except HErr α → Bool
  | .ok _ => true
  | .error _ => false

def isConflict {α : Type} : Except HErr α → Bool
  | .error (.http 409 _) => true
  | _ => false

def isNotFound {α : Type} : Except HErr α → Bool
  | .error (.http 404 _) => true
  | _ => false

def isServerError {α : Type} : Except HErr α → Bool
  | .error (.http c _) => 500 ≤ c
  | _ => false

/-- The database state observed after a route handler ran inside its write
unit of work: the handler's final state on success, the entry state on error
(rollback). -/
def stateAfter (r : Except HErr (DB × Option CollabRow)) (db : DB) : DB :=
  match r with
  | .ok (db2, _) => db2
  | .error _ => db

/-- The row a successful handler returned. -/
def rowAfter (r : Except HErr (DB × Option CollabRow)) : Option CollabRow :=
  match r with
  | .ok (_, row) => row
  | .error _ => none

/-- Number of audit records for a given entity name. -/
def auditCountFor (db : DB) (e : String) : Nat :=
  (db.audit_log.filter (fun a => a.entity == e)).length

/-- Statuses on a path of transition-table edges starting from `PENDING`. -/
inductive ReachableStatus : ReqStatus → Prop
  | init : ReachableStatus .PENDING
  | step {s t : ReqStatus} : ReachableStatus s → _can_transition s t = true →
      ReachableStatus t

/-- A sample request row between users 1 (requester) and 2 (receiver). -/
def sampleReq (st : ReqStatus) : CollabRow :=
  { id := 10
    requester_id := 1
    receiver_id := 2
    offered_skill_id := none
    wanted_skill_id := none
    status := st
    message := none
    scheduled_at := none
    created_at := 5
    updated_at := 5 }

/-- A sample database holding users 1, 2, 3, one skill, and one request. -/
def sampleDB (st : ReqStatus) : DB :=
  { users := [1, 2, 3]
    skills := [7]
    collabs := [sampleReq st]
    audit_log := []
    now := 6 }

/-- A sample creation payload from user 1 to user 2. -/
def samplePayload : CollabCreate :=
  { requester_id := 1
    receiver_id := 2
    offered_skill_id := none
    wanted_skill_id := none
    message := none
    scheduled_at := none }

/-- The database view the pre-checks of `create_collab` read in the raced
creation scenario: both users exist when checked. -/
def racePreDB : DB :=
  { users := [1, 2], skills := [], collabs := [], audit_log := [], now := 0 }

/-- The database view in force at INSERT time in the raced creation scenario:
user 2 was deleted by a concurrently committed transaction after the
pre-check, so the INSERT's foreign key dangles. -/
def raceInsDB : DB :=
  { users := [1], skills := [], collabs := [], audit_log := [], now := 0 }

/-! ## Shared lemmas about the embedding -/

/-- A fetched row is a row of the table. -/
theorem fetch_mem {db : DB} {rid : Nat} {req : CollabRow}
    (h : _fetch db rid = some req) : req ∈ db.collabs := by
  unfold _fetch at h
  cases hf : db.collabs.find? (fun c => c.id == rid) with
  | none => rw [hf] at h; cases h
  | some c =>
    rw [hf] at h
    simp at h
    exact h.2 ▸ List.mem_of_find?_eq_some hf

/-- A fetched row carries the id it was fetched by, and its join partners
exist. -/
theorem fetch_props {db : DB} {rid : Nat} {req : CollabRow}
    (h : _fetch db rid = some req) :
    (req.id == rid) = true ∧
    db.users.contains req.requester_id = true ∧
    db.users.contains req.receiver_id = true := by
  unfold _fetch at h
  cases hf : db.collabs.find? (fun c => c.id == rid) with
  | none => rw [hf] at h; cases h
  | some c =>
    rw [hf] at h
    simp at h
    obtain ⟨⟨h1, h2⟩, h3⟩ := h
    subst h3
    refine ⟨by simpa using List.find?_some hf, ?_, ?_⟩
    · simpa using h1
    · simpa using h2

/-- `find?` by id over an id-preserving row update finds the updated row. -/
theorem find?_update (rid : Nat) (g : CollabRow → CollabRow)
    (hg : ∀ c, (g c).id = c.id) :
    ∀ (l : List CollabRow) (req : CollabRow),
      l.find? (fun c => c.id == rid) = some req →
      (l.map (fun c => if c.id == rid then g c else c)).find? (fun c => c.id == rid)
        = some (g req) := by
  intro l
  induction l with
  | nil => intro req h; cases h
  | cons c cs ih =>
    intro req h
    cases hc : (c.id == rid) with
    | true =>
      have hreq : req = c := by
        simp [List.find?, hc] at h
        exact h.symm
      subst hreq
      have hgc : ((g req).id == rid) = true := by rw [hg req]; exact hc
      simp [List.find?, List.map_cons, hc, hgc]
    | false =>
      have h2 : cs.find? (fun c => c.id == rid) = some req := by
        simpa [List.find?, hc] using h
      simp only [List.map_cons, List.find?, hc, Bool.false_eq_true, if_false]
      exact ih req h2

/-- `_fetch` after an UPDATE that keeps id and both parties returns the
updated row. -/
theorem fetch_after_update {db : DB} {rid : Nat} {req : CollabRow}
    (g : CollabRow → CollabRow)
    (hid : ∀ c, (g c).id = c.id)
    (hreq : ∀ c, (g c).requester_id = c.requester_id)
    (hrcv : ∀ c, (g c).receiver_id = c.receiver_id)
    (h : _fetch db rid = some req) :
    _fetch { db with collabs := db.collabs.map (fun c =>
        if c.id == rid then g c else c) } rid = some (g req) := by
  have hprops := fetch_props h
  have hfind : db.collabs.find? (fun c => c.id == rid) = some req := by
    unfold _fetch at h
    cases hf : db.collabs.find? (fun c => c.id == rid) with
    | none => rw [hf] at h; cases h
    | some c =>
      rw [hf] at h
      simp at h
      rw [h.2]
  unfold _fetch
  simp only
  rw [find?_update rid g hid _ _ hfind]
  simp [hreq, hrcv]
  exact ⟨by simpa using hprops.2.1, by simpa using hprops.2.2⟩

/-- Every row id is bounded by the fold that computes the next serial id. -/
theorem id_le_maxid (l : List CollabRow) :
    ∀ c ∈ l, c.id ≤ (l.map (fun c => c.id)).foldr Nat.max 0 := by
  induction l with
  | nil => intro c hc; cases hc
  | cons d ds ih =>
    intro c hc
    simp only [List.map_cons, List.foldr_cons]
    cases hc with
    | head => exact Nat.le_max_left _ _
    | tail _ hm => exact le_trans (ih c hm) (Nat.le_max_right _ _)

/-- Bounds carried by a validated `limit`. -/
theorem validate_limit_bounds : ∀ s v, validate_limit s = .ok v → 1 ≤ v ∧ v ≤ 100 := by
  intro s v h
  by_cases hc : 1 ≤ (s.getD 20) ∧ (s.getD 20) ≤ 100
  · have hv : v = s.getD 20 := by
      simp [validate_limit, hc] at h
      exact h.symm
    exact hv ▸ hc
  · simp [validate_limit, hc] at h

/-- Bound carried by a validated `offset`. -/
theorem validate_offset_bounds : ∀ s v, validate_offset s = .ok v → 0 ≤ v := by
  intro s v h
  by_cases hc : 0 ≤ (s.getD 0 : Int)
  · have hv : v = s.getD 0 := by
      simp [validate_offset, hc] at h
      exact h.symm
    exact hv ▸ hc
  · simp [validate_offset, hc] at h

/-- A terminal status has no outgoing transition-table edge. -/
theorem terminal_no_transition {s : ReqStatus}
    (h : s = .DECLINED ∨ s = .CANCELLED ∨ s = .COMPLETED) (nw : ReqStatus) :
    _can_transition s nw = false := by
  rcases h with h | h | h <;> subst h <;> rfl

/-- Everything a successful `set_status` run certifies: the row was fetched,
the actor is a party, the transition is a table edge, the role and
COMPLETED-only-from-ACCEPTED guards passed, and the result is the updated
database together with the re-fetched row. -/
theorem set_status_ok_shape {db : DB} {rid actor : Nat} {nw : ReqStatus}
    {db2 : DB} {r : Option CollabRow}
    (h : set_status db rid actor nw = .ok (db2, r)) :
    ∃ req, _fetch db rid = some req ∧
      _is_party req actor = true ∧
      _can_transition req.status nw = true ∧
      ((nw == ReqStatus.ACCEPTED || nw == ReqStatus.DECLINED)
        && actor != req.receiver_id) = false ∧
      (nw == ReqStatus.COMPLETED && req.status != ReqStatus.ACCEPTED) = false ∧
      db2 = status_updated db rid nw ∧
      r = _fetch (status_updated db rid nw) rid := by
  unfold set_status at h
  cases hf : _fetch db rid with
  | none => rw [hf] at h; cases h
  | some req =>
    rw [hf] at h
    refine ⟨req, rfl, ?_⟩
    cases hp : _is_party req actor with
    | false => simp [hp] at h
    | true =>
      cases hcan : _can_transition req.status nw with
      | false => simp [hp, hcan] at h
      | true =>
        cases hg1 : ((nw == ReqStatus.ACCEPTED || nw == ReqStatus.DECLINED)
            && actor != req.receiver_id) with
        | true => simp [hp, hcan, hg1] at h
        | false =>
          cases hg2 : (nw == ReqStatus.COMPLETED && req.status != ReqStatus.ACCEPTED) with
          | true => simp [hp, hcan, hg1, hg2] at h
          | false =>
            simp [hp, hcan, hg1, hg2] at h
            exact ⟨rfl, rfl, rfl, rfl, h.1.symm, h.2.symm⟩

/-- Everything a successful `reschedule` run certifies. -/
theorem reschedule_ok_shape {db : DB} {rid actor t : Nat}
    {db2 : DB} {r : Option CollabRow}
    (h : reschedule db rid actor t = .ok (db2, r)) :
    ∃ req, _fetch db rid = some req ∧
      _is_party req actor = true ∧
      (req.status == ReqStatus.PENDING || req.status == ReqStatus.ACCEPTED) = true ∧
      db2 = sched_updated db rid t ∧
      r = _fetch (sched_updated db rid t) rid := by
  unfold reschedule at h
  cases hf : _fetch db rid with
  | none => rw [hf] at h; cases h
  | some req =>
    rw [hf] at h
    refine ⟨req, rfl, ?_⟩
    cases hp : _is_party req actor with
    | false => simp [hp] at h
    | true =>
      cases hst : (req.status == ReqStatus.PENDING || req.status == ReqStatus.ACCEPTED) with
      | false => simp [hp, hst] at h
      | true =>
        simp [hp, hst] at h
        exact ⟨rfl, rfl, h.1.symm, h.2.symm⟩

/-- Everything a successful `create_collab` run certifies: all pre-checks
passed, the insert-time foreign keys resolved, and the result is the inserted
database together with the re-fetched new row. -/
theorem create_collab_ok_shape {db dbIns : DB} {p : CollabCreate}
    {db2 : DB} {r : Option CollabRow}
    (h : create_collab db dbIns p = .ok (db2, r)) :
    (p.requester_id == p.receiver_id) = false ∧
    _user_exists db p.requester_id = true ∧
    _user_exists db p.receiver_id = true ∧
    skill_ok db p.offered_skill_id = true ∧
    skill_ok db p.wanted_skill_id = true ∧
    fk_dangling dbIns p = false ∧
    db2 = inserted dbIns p ∧
    r = _fetch (inserted dbIns p) (next_id dbIns) := by
  unfold create_collab at h
  cases h1 : (p.requester_id == p.receiver_id) with
  | true => simp [h1] at h
  | false =>
    cases h2 : _user_exists db p.requester_id with
    | false => simp [h1, h2] at h
    | true =>
      cases h3 : _user_exists db p.receiver_id with
      | false => simp [h1, h2, h3] at h
      | true =>
        cases h4 : skill_ok db p.offered_skill_id with
        | false => simp [h1, h2, h3, h4] at h
        | true =>
          cases h5 : skill_ok db p.wanted_skill_id with
          | false => simp [h1, h2, h3, h4, h5] at h
          | true =>
            cases h6 : fk_dangling dbIns p with
            | true => simp [h1, h2, h3, h4, h5, h6] at h
            | false =>
              simp [h1, h2, h3, h4, h5, h6] at h
              exact ⟨rfl, rfl, rfl, rfl, rfl, rfl, h.1.symm, h.2.symm⟩

/-! ## Claim theorems -/

/-- Claim C9: a write-mode unit of work (`cursor_write`) commits exactly the
state produced by a fully successful body; any exception raised inside rolls
the stored state back to what it was when the unit of work began and is
re-raised; and the pooled connection is back in the pool on every exit path.
The third conjunct spells this out for a body that is a sequence of
statements: if any statement raises, nothing of the sequence is committed. -/
theorem C9_write_unit_of_work :
    ∀ (α : Type) (pool : Nat) (db : DB) (body : DB → Except HErr (DB × α)),
      0 < pool →
      (∀ db2 a, body db = .ok (db2, a) →
        cursor_write pool db body = (.ok a, db2, pool)) ∧
      (∀ e, body db = .error e →
        cursor_write pool db body = (.error e, db, pool)) ∧
      (∀ (stmts : List (DB → Except HErr DB)) (e : HErr),
        run_statements stmts db = .error e →
        cursor_write pool db
            (fun d => Except.map (fun db2 => (db2, ())) (run_statements stmts d))
          = (.error e, db, pool)) := by
  intro α pool db body hpool
  have hp : pool - 1 + 1 = pool := Nat.succ_pred_eq_of_pos hpool
  refine ⟨?_, ?_, ?_⟩
  · intro db2 a h
    simp [cursor_write, h, hp]
  · intro e h
    simp [cursor_write, h, hp]
  · intro stmts e h
    simp [cursor_write, h, Except.map, hp]

/-- Witness for C9 at a concrete accepted transition: pool of one connection,
receiver accepts a pending request; the body's state is committed and the
connection is back. -/
theorem C9_write_unit_of_work_witness :
    cursor_write 1 (sampleDB .PENDING) (fun d => set_status d 10 2 .ACCEPTED)
      = (.ok (some { sampleReq .PENDING with status := .ACCEPTED, updated_at := 6 }),
         { sampleDB .PENDING with
            collabs := [{ sampleReq .PENDING with status := .ACCEPTED, updated_at := 6 }] },
         1) :=
  (C9_write_unit_of_work (Option CollabRow) 1 (sampleDB .PENDING)
    (fun d => set_status d 10 2 .ACCEPTED) (by decide)).1 _ _ rfl

/-- Claim C10: `list_collabs` accepts only a limit in [1, 100] (default 20
when omitted) and an offset of at least 0; an out-of-range limit is rejected
as a 422 validation error before any query runs; consequently a successful
call never returns more than 100 rows. -/
theorem C10_list_limit :
    (validate_limit none = .ok 20 ∧ validate_offset none = .ok 0) ∧
    (∀ s v, validate_limit s = .ok v → 1 ≤ v ∧ v ≤ 100) ∧
    (∀ s v, validate_offset s = .ok v → 0 ≤ v) ∧
    (∀ (s : Int), ¬(1 ≤ s ∧ s ≤ 100) →
      ∀ db u st si un off,
        list_collabs db u st si un (some s) off
          = .error (.http 422 "limit out of range")) ∧
    (∀ db u st si un l off rows,
      list_collabs db u st si un l off = .ok rows → rows.length ≤ 100) := by
  refine ⟨⟨rfl, rfl⟩, validate_limit_bounds, validate_offset_bounds, ?_, ?_⟩
  · intro s hs db u st si un off
    simp [list_collabs, validate_limit, hs]
  · intro db u st si un l off rows h
    unfold list_collabs at h
    cases hl : validate_limit l with
    | error e => rw [hl] at h; cases h
    | ok lv =>
      rw [hl] at h
      cases ho : validate_offset off with
      | error e => rw [ho] at h; cases h
      | ok ov =>
        rw [ho] at h
        simp only [Except.ok.injEq] at h
        have hub := (validate_limit_bounds l lv hl).2
        have hlen : rows.length ≤ lv.toNat := by
          rw [← h]
          simp [List.length_take]
        exact le_trans hlen (by omega)

/-- Witness for C10 at a concrete call: listing with all parameters omitted
returns the one sample row, within the bound. -/
theorem C10_list_limit_witness :
    ([sampleReq .PENDING] : List CollabRow).length ≤ 100 :=
  C10_list_limit.2.2.2.2 (sampleDB .PENDING) none none none none none none
    [sampleReq .PENDING] rfl

/-- Counterexample to claim C1 as stated: on a request whose status is the
terminal DECLINED, a `set_status` call by a non-party actor (user 3) is
rejected with 403 Forbidden — not with a 409 Conflict as the claim demands
for every `set_status` call on a terminal request. -/
theorem C1_counterexample :
    set_status (sampleDB .DECLINED) 10 3 .CANCELLED
      = .error (.http 403 "Only participants can change status") ∧
    isConflict (set_status (sampleDB .DECLINED) 10 3 .CANCELLED) = false :=
  ⟨rfl, rfl⟩

/-- Counterexample to claim C2 as stated: a fully accepted `create_collab`
(users 1 and 2 exist, payload valid) commits zero audit records for entity
"collab_requests", not exactly one. -/
theorem C2_counterexample :
    isOkR (create_collab (sampleDB .PENDING) (sampleDB .PENDING) samplePayload) = true ∧
    auditCountFor
        (stateAfter (create_collab (sampleDB .PENDING) (sampleDB .PENDING) samplePayload)
          (sampleDB .PENDING))
        "collab_requests" = 0 :=
  ⟨rfl, rfl⟩

/-- Counterexample to claim C3 as stated: when the INSERT raises a
foreign-key violation (user 2 vanished between pre-check and insert), the
operation fails with HTTP 400 "Invalid foreign key" — not with the 404
NotFound class the pre-check would have produced. -/
theorem C3_counterexample :
    create_collab racePreDB raceInsDB samplePayload
      = .error (.http 400 "Invalid foreign key") ∧
    isNotFound (create_collab racePreDB raceInsDB samplePayload) = false :=
  ⟨rfl, rfl⟩

/-- Counterexample to claim C4 as stated: the requester (user 1) attempting
to set the PENDING request to ACCEPTED is rejected with 403 Forbidden, not
with the 409 Conflict class the claim demands for a role-restricted
transition attempted by the wrong party. -/
theorem C4_counterexample :
    set_status (sampleDB .PENDING) 10 1 .ACCEPTED
      = .error (.http 403 "Only receiver can accept or decline") ∧
    isConflict (set_status (sampleDB .PENDING) 10 1 .ACCEPTED) = false :=
  ⟨rfl, rfl⟩

/-- Claim C1 (amended): `set_status` succeeds only along edges of
`ALLOWED_TRANSITIONS`; a `set_status` call by a party on a request in a
terminal status (DECLINED, CANCELLED, COMPLETED) is rejected as a 409
Conflict, and a call by any actor on such a request is rejected (a non-party
call gets 403 Forbidden instead of 409); hence successful transitions
preserve the invariant that every stored status lies on a path of table
edges starting from PENDING. -/
theorem C1_transition_discipline :
    (∀ db rid actor nw db2 r, set_status db rid actor nw = .ok (db2, r) →
      ∃ req, _fetch db rid = some req ∧ _can_transition req.status nw = true) ∧
    (∀ db rid actor nw req, _fetch db rid = some req → _is_party req actor = true →
      (req.status = ReqStatus.DECLINED ∨ req.status = ReqStatus.CANCELLED ∨
        req.status = ReqStatus.COMPLETED) →
      set_status db rid actor nw = .error (.http 409 "Illegal transition")) ∧
    (∀ db rid actor nw req, _fetch db rid = some req →
      (req.status = ReqStatus.DECLINED ∨ req.status = ReqStatus.CANCELLED ∨
        req.status = ReqStatus.COMPLETED) →
      isOkR (set_status db rid actor nw) = false) ∧
    (∀ db rid actor nw db2 r,
      (∀ c ∈ db.collabs, ReachableStatus c.status) →
      set_status db rid actor nw = .ok (db2, r) →
      ∀ c ∈ db2.collabs, ReachableStatus c.status) := by
  refine ⟨?_, ?_, ?_, ?_⟩
  · intro db rid actor nw db2 r h
    obtain ⟨req, hf, _, hcan, _⟩ := set_status_ok_shape h
    exact ⟨req, hf, hcan⟩
  · intro db rid actor nw req hf hp hterm
    unfold set_status
    rw [hf]
    simp [hp, terminal_no_transition hterm nw]
  · intro db rid actor nw req hf hterm
    cases hp : _is_party req actor with
    | false =>
      unfold set_status
      rw [hf]
      simp [hp, isOkR]
    | true =>
      unfold set_status
      rw [hf]
      simp [hp, terminal_no_transition hterm nw, isOkR]
  · intro db rid actor nw db2 r hinv h c hc
    obtain ⟨req, hf, _, hcan, _, _, hdb2, _⟩ := set_status_ok_shape h
    subst hdb2
    simp only [status_updated, List.mem_map] at hc
    obtain ⟨a, ha, hfa⟩ := hc
    cases haid : (a.id == rid) with
    | true =>
      simp only [haid, if_true] at hfa
      subst hfa
      exact ReachableStatus.step (hinv req (fetch_mem hf)) hcan
    | false =>
      simp only [haid, Bool.false_eq_true, if_false] at hfa
      subst hfa
      exact hinv a ha

/-- Witness for C1 at a concrete terminal request: the requester (a party)
tries to cancel an already-declined request and gets the 409 Conflict. -/
theorem C1_transition_discipline_witness :
    set_status (sampleDB .DECLINED) 10 1 .CANCELLED
      = .error (.http 409 "Illegal transition") :=
  C1_transition_discipline.2.1 (sampleDB .DECLINED) 10 1 .CANCELLED
    (sampleReq .DECLINED) rfl rfl (Or.inl rfl)

/-- Claim C2 (amended): no accepted `create_collab`, `set_status` or
`reschedule` on a collaboration request writes any audit record — the audit
log is unchanged by each of these operations (the routes never invoke
`log_event`), so in particular no record with entity "collab_requests" is
ever written. -/
theorem C2_no_audit_record :
    (∀ db dbIns p db2 r, create_collab db dbIns p = .ok (db2, r) →
      db2.audit_log = dbIns.audit_log ∧
      auditCountFor db2 "collab_requests" = auditCountFor dbIns "collab_requests") ∧
    (∀ db rid actor nw db2 r, set_status db rid actor nw = .ok (db2, r) →
      db2.audit_log = db.audit_log) ∧
    (∀ db rid actor t db2 r, reschedule db rid actor t = .ok (db2, r) →
      db2.audit_log = db.audit_log) := by
  refine ⟨?_, ?_, ?_⟩
  · intro db dbIns p db2 r h
    obtain ⟨_, _, _, _, _, _, hdb2, _⟩ := create_collab_ok_shape h
    subst hdb2
    exact ⟨rfl, rfl⟩
  · intro db rid actor nw db2 r h
    obtain ⟨req, _, _, _, _, _, hdb2, _⟩ := set_status_ok_shape h
    subst hdb2
    rfl
  · intro db rid actor t db2 r h
    obtain ⟨req, _, _, _, hdb2, _⟩ := reschedule_ok_shape h
    subst hdb2
    rfl

/-- Witness for C2 at a concrete accepted creation: the audit log after the
insert equals the audit log before it. -/
theorem C2_no_audit_record_witness :
    (inserted (sampleDB .PENDING) samplePayload).audit_log
        = (sampleDB .PENDING).audit_log ∧
    auditCountFor (inserted (sampleDB .PENDING) samplePayload) "collab_requests"
        = auditCountFor (sampleDB .PENDING) "collab_requests" :=
  C2_no_audit_record.1 (sampleDB .PENDING) (sampleDB .PENDING) samplePayload _ _ rfl

/-- Claim C3 (amended): when the INSERT of `create_collab` raises a
foreign-key violation after all pre-checks passed (the check/insert race),
the operation fails with HTTP 400 "Invalid foreign key" — a client error,
never an internal failure, but not the 404 NotFound class the corresponding
pre-check produces. -/
theorem C3_fk_race_client_error :
    ∀ db dbIns p,
      (p.requester_id == p.receiver_id) = false →
      _user_exists db p.requester_id = true →
      _user_exists db p.receiver_id = true →
      skill_ok db p.offered_skill_id = true →
      skill_ok db p.wanted_skill_id = true →
      fk_dangling dbIns p = true →
      create_collab db dbIns p = .error (.http 400 "Invalid foreign key") ∧
      isNotFound (create_collab db dbIns p) = false ∧
      isServerError (create_collab db dbIns p) = false := by
  intro db dbIns p h1 h2 h3 h4 h5 h6
  have hc : create_collab db dbIns p = .error (.http 400 "Invalid foreign key") := by
    unfold create_collab
    simp [h1, h2, h3, h4, h5, h6]
  refine ⟨hc, ?_, ?_⟩ <;> rw [hc] <;> rfl

/-- Witness for C3 at the concrete raced creation. -/
theorem C3_fk_race_client_error_witness :
    create_collab racePreDB raceInsDB samplePayload
        = .error (.http 400 "Invalid foreign key") ∧
    isNotFound (create_collab racePreDB raceInsDB samplePayload) = false ∧
    isServerError (create_collab racePreDB raceInsDB samplePayload) = false :=
  C3_fk_race_client_error racePreDB raceInsDB samplePayload rfl rfl rfl rfl rfl rfl

/-- Claim C4 (amended): a role-restricted transition attempted by the wrong
party — the requester attempting ACCEPTED or DECLINED — fails with 403
Forbidden (the same class as the non-party rejection), not with the 409
Conflict class of an illegal transition. -/
theorem C4_role_restriction_forbidden :
    ∀ db rid actor nw req,
      _fetch db rid = some req →
      _is_party req actor = true →
      _can_transition req.status nw = true →
      (nw = ReqStatus.ACCEPTED ∨ nw = ReqStatus.DECLINED) →
      actor ≠ req.receiver_id →
      set_status db rid actor nw
          = .error (.http 403 "Only receiver can accept or decline") ∧
      isConflict (set_status db rid actor nw) = false := by
  intro db rid actor nw req hf hp hcan hnw hne
  have hg1 : ((nw == ReqStatus.ACCEPTED || nw == ReqStatus.DECLINED)
      && actor != req.receiver_id) = true := by
    rcases hnw with h | h <;> subst h <;> simp [hne]
  have he : set_status db rid actor nw
      = .error (.http 403 "Only receiver can accept or decline") := by
    unfold set_status
    rw [hf]
    simp [hp, hcan, hg1]
  exact ⟨he, by rw [he]; rfl⟩

/-- Witness for C4: the requester (user 1) attempts DECLINED on the pending
sample request. -/
theorem C4_role_restriction_forbidden_witness :
    set_status (sampleDB .PENDING) 10 1 .DECLINED
        = .error (.http 403 "Only receiver can accept or decline") ∧
    isConflict (set_status (sampleDB .PENDING) 10 1 .DECLINED) = false :=
  C4_role_restriction_forbidden (sampleDB .PENDING) 10 1 .DECLINED
    (sampleReq .PENDING) rfl rfl rfl (Or.inr rfl) (by decide)

/-- Claim C5: on a PENDING request, `set_status` to ACCEPTED or DECLINED can
succeed only when the actor is the receiver; when the actor is the requester
the call fails with 403 Forbidden and (through the write unit of work) the
stored state — in particular the PENDING status — is unchanged. -/
theorem C5_accept_decline_receiver_only :
    ∀ db rid actor req nw,
      _fetch db rid = some req →
      req.status = ReqStatus.PENDING →
      (nw = ReqStatus.ACCEPTED ∨ nw = ReqStatus.DECLINED) →
      (∀ db2 r, set_status db rid actor nw = .ok (db2, r) →
        actor = req.receiver_id) ∧
      (actor = req.requester_id → req.requester_id ≠ req.receiver_id →
        ∀ pool, 0 < pool →
          cursor_write pool db (fun d => set_status d rid actor nw)
            = (.error (.http 403 "Only receiver can accept or decline"), db, pool)) := by
  intro db rid actor req nw hf hst hnw
  constructor
  · intro db2 r h
    obtain ⟨req2, hf2, _, _, hg1, _⟩ := set_status_ok_shape h
    rw [hf] at hf2
    injection hf2 with hreq2
    subst hreq2
    rcases hnw with h | h <;> subst h <;> simpa using hg1
  · intro hact hne pool hpool
    have hp : _is_party req actor = true := by
      subst hact
      simp [_is_party]
    have hcan : _can_transition req.status nw = true := by
      rw [hst]
      rcases hnw with h | h <;> subst h <;> rfl
    have hg1 : ((nw == ReqStatus.ACCEPTED || nw == ReqStatus.DECLINED)
        && actor != req.receiver_id) = true := by
      subst hact
      rcases hnw with h | h <;> subst h <;> simp [hne]
    have herr : set_status db rid actor nw
        = .error (.http 403 "Only receiver can accept or decline") := by
      unfold set_status
      rw [hf]
      simp [hp, hcan, hg1]
    have hq : pool - 1 + 1 = pool := Nat.succ_pred_eq_of_pos hpool
    simp [cursor_write, herr, hq]

/-- Witness for C5: requester 1 attempts to accept the pending sample
request inside a write unit of work; the rollback leaves the database as it
was. -/
theorem C5_accept_decline_receiver_only_witness :
    cursor_write 1 (sampleDB .PENDING) (fun d => set_status d 10 1 .ACCEPTED)
      = (.error (.http 403 "Only receiver can accept or decline"),
         sampleDB .PENDING, 1) :=
  (C5_accept_decline_receiver_only (sampleDB .PENDING) 10 1 (sampleReq .PENDING)
      .ACCEPTED rfl rfl (Or.inl rfl)).2 rfl (by decide) 1 (by decide)

/-- Claim C6: for an existing request, every mutating operation — set_status
(for every requested status, legal or not), reschedule, delete — by an actor
who is neither requester nor receiver fails with 403 Forbidden; the party
check precedes every transition-legality check, and through the write unit
of work the request is unchanged. -/
theorem C6_party_only_guard :
    ∀ db rid actor req,
      _fetch db rid = some req →
      _is_party req actor = false →
      (∀ nw, set_status db rid actor nw
        = .error (.http 403 "Only participants can change status")) ∧
      (∀ t, reschedule db rid actor t
        = .error (.http 403 "Only participants can reschedule")) ∧
      delete_collab db rid actor
        = .error (.http 403 "Only participants can delete") ∧
      (∀ nw pool, 0 < pool →
        cursor_write pool db (fun d => set_status d rid actor nw)
          = (.error (.http 403 "Only participants can change status"), db, pool)) := by
  intro db rid actor req hf hp
  have hs : ∀ nw, set_status db rid actor nw
      = .error (.http 403 "Only participants can change status") := by
    intro nw
    unfold set_status
    rw [hf]
    simp [hp]
  refine ⟨hs, ?_, ?_, ?_⟩
  · intro t
    unfold reschedule
    rw [hf]
    simp [hp]
  · unfold delete_collab
    rw [hf]
    simp [hp]
  · intro nw pool hpool
    have hq : pool - 1 + 1 = pool := Nat.succ_pred_eq_of_pos hpool
    simp [cursor_write, hs nw, hq]

/-- Witness for C6: third-party user 3 is rejected by all three mutating
operations on the accepted sample request. -/
theorem C6_party_only_guard_witness :
    set_status (sampleDB .ACCEPTED) 10 3 .CANCELLED
        = .error (.http 403 "Only participants can change status") ∧
    reschedule (sampleDB .ACCEPTED) 10 3 99
        = .error (.http 403 "Only participants can reschedule") ∧
    delete_collab (sampleDB .ACCEPTED) 10 3
        = .error (.http 403 "Only participants can delete") := by
  have h := C6_party_only_guard (sampleDB .ACCEPTED) 10 3 (sampleReq .ACCEPTED) rfl rfl
  exact ⟨h.1 .CANCELLED, h.2.1 99, h.2.2.1⟩

/-- Claim C7: `create_collab` rejects requester == receiver with a 400
validation error before any storage write; a missing user or referenced
skill yields a 404 NotFound; and every successful creation returns a row
whose status is PENDING — the payload carries no status, so the caller
cannot choose a different initial one. -/
theorem C7_create_validation :
    ∀ db dbIns p,
      (p.requester_id = p.receiver_id →
        create_collab db dbIns p
          = .error (.http 400 "Requester and receiver must be different")) ∧
      (p.requester_id ≠ p.receiver_id →
        (_user_exists db p.requester_id = false ∨
         _user_exists db p.receiver_id = false ∨
         skill_ok db p.offered_skill_id = false ∨
         skill_ok db p.wanted_skill_id = false) →
        isNotFound (create_collab db dbIns p) = true) ∧
      (∀ db2 r, create_collab db dbIns p = .ok (db2, r) →
        ∃ c, r = some c ∧ c.status = ReqStatus.PENDING ∧ c ∈ db2.collabs) := by
  intro db dbIns p
  refine ⟨?_, ?_, ?_⟩
  · intro h
    unfold create_collab
    simp [h]
  · intro hne hmiss
    have h1 : (p.requester_id == p.receiver_id) = false := by
      simp [hne]
    unfold create_collab
    cases h2 : _user_exists db p.requester_id with
    | false => simp [h1, h2, isNotFound]
    | true =>
      cases h3 : _user_exists db p.receiver_id with
      | false => simp [h1, h2, h3, isNotFound]
      | true =>
        cases h4 : skill_ok db p.offered_skill_id with
        | false => simp [h1, h2, h3, h4, isNotFound]
        | true =>
          cases h5 : skill_ok db p.wanted_skill_id with
          | false => simp [h1, h2, h3, h4, h5, isNotFound]
          | true =>
            exfalso
            rcases hmiss with hm | hm | hm | hm <;> simp_all
  · intro db2 r h
    obtain ⟨_, _, _, _, _, hfk, hdb2, hr⟩ := create_collab_ok_shape h
    subst hdb2
    have hfkparts : p.requester_id ∈ dbIns.users ∧ p.receiver_id ∈ dbIns.users := by
      unfold fk_dangling at hfk
      simp at hfk
      obtain ⟨⟨⟨hu1, hu2⟩, _⟩, _⟩ := hfk
      exact ⟨hu1, hu2⟩
    have hnone : dbIns.collabs.find? (fun c => c.id == next_id dbIns) = none := by
      apply List.find?_eq_none.mpr
      intro x hx
      have hle := id_le_maxid dbIns.collabs x hx
      simp only [beq_iff_eq]
      unfold next_id
      omega
    have happ : (dbIns.collabs ++ [new_row dbIns p]).find?
        (fun c => c.id == next_id dbIns) = some (new_row dbIns p) := by
      have hpred : ((new_row dbIns p).id == next_id dbIns) = true := by
        simp [new_row]
      simp [List.find?_append, hnone, List.find?, hpred]
    have hfetch : _fetch (inserted dbIns p) (next_id dbIns)
        = some (new_row dbIns p) := by
      unfold _fetch
      have hcoll : (inserted dbIns p).collabs
          = dbIns.collabs ++ [new_row dbIns p] := rfl
      rw [hcoll, happ]
      simp [inserted, new_row, hfkparts.1, hfkparts.2]

    refine ⟨new_row dbIns p, ?_, rfl, ?_⟩
    · rw [hr, hfetch]
    · simp [inserted]

/-- Witness for C7 at the concrete sample creation: the inserted row exists,
is PENDING, and is stored. -/
theorem C7_create_validation_witness :
    ∃ c, _fetch (inserted (sampleDB .PENDING) samplePayload)
          (next_id (sampleDB .PENDING)) = some c ∧
      c.status = ReqStatus.PENDING ∧
      c ∈ (inserted (sampleDB .PENDING) samplePayload).collabs :=
  (C7_create_validation (sampleDB .PENDING) (sampleDB .PENDING) samplePayload).2.2
    _ _ rfl

/-- Claim C8: for an existing request and a party actor, `reschedule` sets
`scheduled_at` to the requested time without changing the status exactly
when the current status is PENDING or ACCEPTED; on a terminal status it
fails with 409 Conflict and (through the write unit of work) the request is
unchanged. -/
theorem C8_reschedule_window :
    ∀ db rid actor t req,
      _fetch db rid = some req →
      _is_party req actor = true →
      ((req.status = ReqStatus.PENDING ∨ req.status = ReqStatus.ACCEPTED) →
        reschedule db rid actor t
          = .ok (sched_updated db rid t,
                 some { req with scheduled_at := some t, updated_at := db.now })) ∧
      ((req.status = ReqStatus.DECLINED ∨ req.status = ReqStatus.CANCELLED ∨
          req.status = ReqStatus.COMPLETED) →
        ∀ pool, 0 < pool →
          cursor_write pool db (fun d => reschedule d rid actor t)
            = (.error (.http 409 "Can reschedule only when PENDING or ACCEPTED"),
               db, pool)) ∧
      (isOkR (reschedule db rid actor t) = true ↔
        (req.status = ReqStatus.PENDING ∨ req.status = ReqStatus.ACCEPTED)) := by
  intro db rid actor t req hf hp
  have hsucc : (req.status = ReqStatus.PENDING ∨ req.status = ReqStatus.ACCEPTED) →
      reschedule db rid actor t
        = .ok (sched_updated db rid t,
               some { req with scheduled_at := some t, updated_at := db.now }) := by
    intro hok
    have hst : (req.status == ReqStatus.PENDING || req.status == ReqStatus.ACCEPTED)
        = true := by
      rcases hok with h | h <;> rw [h] <;> rfl
    have hfetch2 : _fetch (sched_updated db rid t) rid
        = some { req with scheduled_at := some t, updated_at := db.now } :=
      fetch_after_update
        (fun c => { c with scheduled_at := some t, updated_at := db.now })
        (fun c => rfl) (fun c => rfl) (fun c => rfl) hf
    unfold reschedule
    rw [hf]
    simp [hp, hst, hfetch2]
  refine ⟨hsucc, ?_, ?_⟩
  · intro hterm pool hpool
    have hst : (req.status == ReqStatus.PENDING || req.status == ReqStatus.ACCEPTED)
        = false := by
      rcases hterm with h | h | h <;> rw [h] <;> rfl
    have herr : reschedule db rid actor t
        = .error (.http 409 "Can reschedule only when PENDING or ACCEPTED") := by
      unfold reschedule
      rw [hf]
      simp [hp, hst]
    have hq : pool - 1 + 1 = pool := Nat.succ_pred_eq_of_pos hpool
    simp [cursor_write, herr, hq]
  · constructor
    · intro hok
      cases hres : reschedule db rid actor t with
      | error e =>
        rw [hres] at hok
        simp [isOkR] at hok
      | ok pr =>
        obtain ⟨db2, r⟩ := pr
        obtain ⟨req2, hf2, _, hst, _⟩ := reschedule_ok_shape hres
        rw [hf] at hf2
        injection hf2 with hreq2
        subst hreq2
        simpa using hst
    · intro hok
      rw [hsucc hok]
      rfl

/-- Witness for C8: either party (here the receiver, user 2) reschedules the
accepted sample request to time 42; the status stays ACCEPTED. -/
theorem C8_reschedule_window_witness :
    reschedule (sampleDB .ACCEPTED) 10 2 42
      = .ok (sched_updated (sampleDB .ACCEPTED) 10 42,
             some { sampleReq .ACCEPTED with scheduled_at := some 42, updated_at := 6 }) :=
  (C8_reschedule_window (sampleDB .ACCEPTED) 10 2 42 (sampleReq .ACCEPTED)
      rfl rfl).1 (Or.inr rfl)
